import Mathlib

/-!
Verification of `source/restclient.cc` (restclient-cpp facade).

The file under examination is a static-method facade over an HTTP
`Connection` class and libcurl.  We embed it shallowly:

* `Response` models `RestClient::Response` (status code, body, headers).
* `Connection` models the per-call connection state the facade builds
  (base URL given to the constructor, appended header fields).
* The external transport (the `Connection` class's REST methods, out of
  scope of this repository's source) is an abstract function from the
  connection state and the HTTP call to a `Response`.
* Each facade method is translated statement by statement and returns,
  together with the delegated response, the trace of connection-level
  events it performs (`connCreate`, `appendHeader`, `delegatedCall`,
  `connDestroy`, `formFree`), so that control-flow claims (one fresh
  connection per call, exactly one delegated call, destruction before
  return, no release of the caller's form builder) become statements
  about the trace.
* `PostFormInfo` models the multipart form builder: `formPtr` and
  `lastFormPtr` are the two `curl_httppost*` members, `none` standing
  for `NULL`; `curl_formadd` and the destructor's `curl_formfree` are
  modelled explicitly, with a `Bool` parameter for whether the library
  append call succeeds (libcurl's `curl_formadd` returns a
  `CURLFORMcode`, nonzero on failure, in which case it leaves the chain
  untouched).
-/

namespace RestClient

/-- `RestClient::Response` (from restclient.h, as described by the spec's
data model): status code, body, header fields. -/
structure Response where
  code : Int
  body : String
  headers : List (String × String)
deriving DecidableEq

/-- One node of the `curl_httppost` form chain built by
`PostFormInfo::addFormFile` / `addFormContent`.  A `file` node stores the
field name and the file path (CURLFORM_COPYNAME / CURLFORM_FILE); a
`content` node stores the field name and the copied literal value
(CURLFORM_COPYNAME / CURLFORM_COPYCONTENTS). -/
inductive FormField where
  | file (fieldName filePath : String)
  | content (fieldName fieldValue : String)
deriving DecidableEq

/-- `RestClient::PostFormInfo`: the two members `formPtr` (head of the
`curl_httppost` chain) and `lastFormPtr` (pointer to the last node kept
for `curl_formadd`); `none` models a `NULL` pointer. -/
structure PostFormInfo where
  formPtr : Option (List FormField)
  lastFormPtr : Option FormField
deriving DecidableEq

/-- `RestClient::PostFormInfo::PostFormInfo()` (restclient.cc:211-213):
initialises `formPtr` and `lastFormPtr` to `NULL`. -/
def PostFormInfo.new : PostFormInfo :=
  { formPtr := none, lastFormPtr := none }

/-- Model of libcurl's `curl_formadd(&formPtr, &lastFormPtr, ...)`: on
success it appends the one new node at the end of the chain headed by
`formPtr` (allocating the chain when the head is `NULL`), repoints
`lastFormPtr` at that node and returns `CURL_FORMADD_OK` (0); on failure
it leaves both pointers unchanged and returns a nonzero `CURLFORMcode`
(modelled as 1).  `ok` says whether the library call succeeds. -/
def curl_formadd (fp : Option (List FormField)) (lp : Option FormField)
    (f : FormField) (ok : Bool) :
    (Option (List FormField) × Option FormField) × Nat :=
  if ok then
    match fp with
    | none => ((some [f], some f), 0)
    | some chain => ((some (chain ++ [f]), some f), 0)
  else ((fp, lp), 1)

/-- `RestClient::PostFormInfo::addFormFile` (restclient.cc:233-239):
calls `curl_formadd` with CURLFORM_COPYNAME / CURLFORM_FILE and discards
the returned `CURLFORMcode` (the method is `void`).  `ok` is whether the
underlying `curl_formadd` call succeeds. -/
def PostFormInfo.addFormFile (p : PostFormInfo)
    (fieldName fieldValue : String) (ok : Bool) : PostFormInfo :=
  let r := curl_formadd p.formPtr p.lastFormPtr
    (FormField.file fieldName fieldValue) ok
  { formPtr := r.1.1, lastFormPtr := r.1.2 }

/-- `RestClient::PostFormInfo::addFormContent` (restclient.cc:248-254):
calls `curl_formadd` with CURLFORM_COPYNAME / CURLFORM_COPYCONTENTS and
discards the returned `CURLFORMcode` (the method is `void`).  `ok` is
whether the underlying `curl_formadd` call succeeds. -/
def PostFormInfo.addFormContent (p : PostFormInfo)
    (fieldName fieldValue : String) (ok : Bool) : PostFormInfo :=
  let r := curl_formadd p.formPtr p.lastFormPtr
    (FormField.content fieldName fieldValue) ok
  { formPtr := r.1.1, lastFormPtr := r.1.2 }

/-- The field chain owned by the builder (empty when the head pointer is
`NULL`). -/
def PostFormInfo.chain (p : PostFormInfo) : List FormField :=
  p.formPtr.getD []

/-- Value a chain node contributes to the multipart body at submission
time, given the state `fs` of the filesystem (path to contents) at that
moment: a `content` node carries its copied literal value, a `file` node
is read from its stored path. -/
def FormField.submittedValue (fs : String → Option String) :
    FormField → Option String
  | FormField.content _ v => some v
  | FormField.file _ path => fs path

/-- `Connection` state as the facade builds it: the base URL passed to
`RestClient::Connection(url)` and the header fields accumulated by
`AppendHeader` calls, in order. -/
structure Connection where
  baseUrl : String
  headerFields : List (String × String)
deriving DecidableEq

/-- `new RestClient::Connection(url)`: fresh connection with the given
base URL and no header fields. -/
def Connection.new (url : String) : Connection :=
  { baseUrl := url, headerFields := [] }

/-- `Connection::AppendHeader(key, value)`: appends one header field to
the connection. -/
def Connection.AppendHeader (c : Connection) (key value : String) :
    Connection :=
  { c with headerFields := c.headerFields ++ [(key, value)] }

/-- The delegated REST call a facade method performs on its connection. -/
inductive HttpCall where
  | get (url : String)
  | post (url data : String)
  | put (url data : String)
  | patch (url data : String)
  | del (url : String)
  | head (url : String)
  | options (url : String)
  | postForm (url : String) (data : PostFormInfo)
deriving DecidableEq

/-- The transport: the out-of-scope `Connection` REST methods, as a
function from the connection state and the call to the response they
produce (failures included: libcurl-level errors are just particular
`Response` values, e.g. a negative code with an error description as
body). -/
abbrev Transport := Connection → HttpCall → Response

/-- Connection-level events a facade call performs, in order. -/
inductive Event where
  | connCreate (baseUrl : String)
  | appendHeader (key value : String)
  | delegatedCall (conn : Connection) (call : HttpCall)
  | connDestroy
  | formFree (chain : List FormField)
  | globalInit
  | globalCleanup
deriving DecidableEq

/-- Whether an event is a delegated REST call. -/
def Event.isDelegatedCall : Event → Bool
  | Event.delegatedCall _ _ => true
  | _ => false

/-- Whether an event is an `AppendHeader` call. -/
def Event.isAppendHeader : Event → Bool
  | Event.appendHeader _ _ => true
  | _ => false

/-- Whether an event is a `curl_formfree` release of a form chain. -/
def Event.isFormFree : Event → Bool
  | Event.formFree _ => true
  | _ => false

/-- `RestClient::PostFormInfo::~PostFormInfo()` (restclient.cc:218-225):
if `formPtr` is non-`NULL`, calls `curl_formfree` on the chain and sets
both `formPtr` and `lastFormPtr` to `NULL`; otherwise does nothing.  The
returned trace records the `curl_formfree` call when it happens. -/
def PostFormInfo.destruct (p : PostFormInfo) : PostFormInfo × List Event :=
  match p.formPtr with
  | some chain =>
      ({ formPtr := none, lastFormPtr := none }, [Event.formFree chain])
  | none => (p, [])

/-- `RestClient::init()` (restclient.cc:27-34): calls
`curl_global_init(CURL_GLOBAL_ALL)` once and returns 0 if the resulting
`CURLcode` is `CURLE_OK` (0), else 1.  `res` is the code the library
call returns; the trace records the single library init call. -/
def init (res : Nat) : Nat × List Event :=
  (if res = 0 then 0 else 1, [Event.globalInit])

/-- `RestClient::disable()` (restclient.cc:40-42): calls
`curl_global_cleanup()` once. -/
def disable : List Event :=
  [Event.globalCleanup]

/-- `RestClient::get` (restclient.cc:51-62): constructs
`Connection("")`, delegates `conn->get(url)`, destroys the connection
and returns the delegated response unchanged. -/
def get (t : Transport) (url : String) : Response × List Event :=
  let conn := Connection.new ""
  let ret := t conn (HttpCall.get url)
  (ret, [Event.connCreate "", Event.delegatedCall conn (HttpCall.get url),
         Event.connDestroy])

/-- `RestClient::post` (restclient.cc:73-88): constructs
`Connection("")`, appends the `Content-Type` header with the caller's
`ctype`, delegates `conn->post(url, data)`, destroys the connection and
returns the delegated response unchanged. -/
def post (t : Transport) (url ctype data : String) :
    Response × List Event :=
  let conn0 := Connection.new ""
  let conn := conn0.AppendHeader "Content-Type" ctype
  let ret := t conn (HttpCall.post url data)
  (ret, [Event.connCreate "", Event.appendHeader "Content-Type" ctype,
         Event.delegatedCall conn (HttpCall.post url data),
         Event.connDestroy])

/-- `RestClient::postForm` (restclient.cc:98-105): constructs
`Connection("")`, delegates `conn->postForm(url, data)` with the
caller's builder (passed by const reference, so unmodified), destroys
the connection and returns the delegated response unchanged.  The
builder is not released: no `formFree` event occurs. -/
def postForm (t : Transport) (url : String) (data : PostFormInfo) :
    Response × List Event :=
  let conn := Connection.new ""
  let ret := t conn (HttpCall.postForm url data)
  (ret, [Event.connCreate "",
         Event.delegatedCall conn (HttpCall.postForm url data),
         Event.connDestroy])

/-- `RestClient::put` (restclient.cc:116-131): constructs
`Connection("")`, appends the `Content-Type` header with the caller's
`ctype`, delegates `conn->put(url, data)`, destroys the connection and
returns the delegated response unchanged. -/
def put (t : Transport) (url ctype data : String) :
    Response × List Event :=
  let conn0 := Connection.new ""
  let conn := conn0.AppendHeader "Content-Type" ctype
  let ret := t conn (HttpCall.put url data)
  (ret, [Event.connCreate "", Event.appendHeader "Content-Type" ctype,
         Event.delegatedCall conn (HttpCall.put url data),
         Event.connDestroy])

/-- `RestClient::patch` (restclient.cc:142-151): constructs
`Connection("")`, appends the `Content-Type` header with the caller's
`ctype`, delegates `conn->patch(url, data)`, destroys the connection and
returns the delegated response unchanged. -/
def patch (t : Transport) (url ctype data : String) :
    Response × List Event :=
  let conn0 := Connection.new ""
  let conn := conn0.AppendHeader "Content-Type" ctype
  let ret := t conn (HttpCall.patch url data)
  (ret, [Event.connCreate "", Event.appendHeader "Content-Type" ctype,
         Event.delegatedCall conn (HttpCall.patch url data),
         Event.connDestroy])

/-- `RestClient::del` (restclient.cc:160-171): constructs
`Connection("")`, delegates `conn->del(url)`, destroys the connection
and returns the delegated response unchanged. -/
def del (t : Transport) (url : String) : Response × List Event :=
  let conn := Connection.new ""
  let ret := t conn (HttpCall.del url)
  (ret, [Event.connCreate "", Event.delegatedCall conn (HttpCall.del url),
         Event.connDestroy])

/-- `RestClient::head` (restclient.cc:180-191): constructs
`Connection("")`, delegates `conn->head(url)`, destroys the connection
and returns the delegated response unchanged. -/
def head (t : Transport) (url : String) : Response × List Event :=
  let conn := Connection.new ""
  let ret := t conn (HttpCall.head url)
  (ret, [Event.connCreate "",
         Event.delegatedCall conn (HttpCall.head url),
         Event.connDestroy])

/-- `RestClient::options` (restclient.cc:200-206): constructs
`Connection("")`, delegates `conn->options(url)`, destroys the
connection and returns the delegated response unchanged. -/
def options (t : Transport) (url : String) : Response × List Event :=
  let conn := Connection.new ""
  let ret := t conn (HttpCall.options url)
  (ret, [Event.connCreate "",
         Event.delegatedCall conn (HttpCall.options url),
         Event.connDestroy])

/-- One builder append call, as the caller makes it (the success case of
the underlying `curl_formadd`). -/
inductive AppendOp where
  | file (fieldName filePath : String)
  | content (fieldName fieldValue : String)
deriving DecidableEq

/-- The chain node an append call produces. -/
def AppendOp.toField : AppendOp → FormField
  | AppendOp.file n v => FormField.file n v
  | AppendOp.content n v => FormField.content n v

/-- Perform one append call on a builder, the underlying `curl_formadd`
succeeding. -/
def AppendOp.apply (p : PostFormInfo) : AppendOp → PostFormInfo
  | AppendOp.file n v => p.addFormFile n v true
  | AppendOp.content n v => p.addFormContent n v true

/-- Perform a sequence of append calls on a builder, in order. -/
def PostFormInfo.applyOps (p : PostFormInfo) : List AppendOp → PostFormInfo
  | [] => p
  | op :: rest => (AppendOp.apply p op).applyOps rest

lemma AppendOp.apply_chain (p : PostFormInfo) (op : AppendOp) :
    (AppendOp.apply p op).chain = p.chain ++ [op.toField] := by
  cases op <;> cases h : p.formPtr <;>
    simp [AppendOp.apply, AppendOp.toField, PostFormInfo.addFormFile,
      PostFormInfo.addFormContent, curl_formadd, PostFormInfo.chain, h]

lemma AppendOp.apply_formPtr_isSome (p : PostFormInfo) (op : AppendOp) :
    (AppendOp.apply p op).formPtr.isSome = true := by
  cases op <;> cases h : p.formPtr <;>
    simp [AppendOp.apply, PostFormInfo.addFormFile,
      PostFormInfo.addFormContent, curl_formadd, h]

lemma PostFormInfo.applyOps_chain (ops : List AppendOp) :
    ∀ p : PostFormInfo,
      (p.applyOps ops).chain = p.chain ++ ops.map AppendOp.toField := by
  induction ops with
  | nil => intro p; simp [PostFormInfo.applyOps]
  | cons op rest ih =>
      intro p
      simp [PostFormInfo.applyOps, ih, AppendOp.apply_chain]

lemma PostFormInfo.applyOps_formPtr_isSome (ops : List AppendOp) :
    ∀ p : PostFormInfo, p.formPtr.isSome = true →
      (p.applyOps ops).formPtr.isSome = true := by
  induction ops with
  | nil => intro p h; simpa [PostFormInfo.applyOps] using h
  | cons op rest ih =>
      intro p _
      exact ih _ (AppendOp.apply_formPtr_isSome p op)

/-- A facade outcome `r` is a one-shot delegation of `call` through
transport `t`: the trace opens with the construction of a connection
with empty base URL, contains exactly one delegated call, that call is
`call` on a connection whose base URL is empty, the final event before
returning is the destruction of the connection, and the returned
response is the delegated call's response, unchanged. -/
def OneShot (t : Transport) (call : HttpCall) (r : Response × List Event) :
    Prop :=
  ∃ conn : Connection, conn.baseUrl = "" ∧
    r.2.head? = some (Event.connCreate "") ∧
    r.2.filter Event.isDelegatedCall = [Event.delegatedCall conn call] ∧
    r.2.getLast? = some Event.connDestroy ∧
    r.1 = t conn call

/-- C1: every facade method constructs a fresh connection with an empty
base-URL string, performs exactly one delegated call on it with the
caller's URL (and payload where applicable), destroys that connection
before returning, and returns the delegated call's response value
unchanged — this holds for every transport, failing ones included, so no
error translation or reinterpretation takes place. -/
theorem facade_oneShot (t : Transport) (url ctype data : String)
    (form : PostFormInfo) :
    OneShot t (HttpCall.get url) (get t url) ∧
    OneShot t (HttpCall.post url data) (post t url ctype data) ∧
    OneShot t (HttpCall.put url data) (put t url ctype data) ∧
    OneShot t (HttpCall.patch url data) (patch t url ctype data) ∧
    OneShot t (HttpCall.del url) (del t url) ∧
    OneShot t (HttpCall.head url) (head t url) ∧
    OneShot t (HttpCall.options url) (options t url) ∧
    OneShot t (HttpCall.postForm url form) (postForm t url form) := by
  refine ⟨⟨Connection.new "", rfl, rfl, rfl, rfl, rfl⟩,
    ⟨(Connection.new "").AppendHeader "Content-Type" ctype,
      rfl, rfl, rfl, rfl, rfl⟩,
    ⟨(Connection.new "").AppendHeader "Content-Type" ctype,
      rfl, rfl, rfl, rfl, rfl⟩,
    ⟨(Connection.new "").AppendHeader "Content-Type" ctype,
      rfl, rfl, rfl, rfl, rfl⟩,
    ⟨Connection.new "", rfl, rfl, rfl, rfl, rfl⟩,
    ⟨Connection.new "", rfl, rfl, rfl, rfl, rfl⟩,
    ⟨Connection.new "", rfl, rfl, rfl, rfl, rfl⟩,
    ⟨Connection.new "", rfl, rfl, rfl, rfl, rfl⟩⟩

/-- C2: post, put and patch append a request header named Content-Type
whose value is exactly the caller-supplied `ctype` to the per-call
connection before delegating, so the delegated request carries exactly
that content-type header field. -/
theorem body_methods_content_type (t : Transport) (url ctype data : String) :
    ∃ conn : Connection,
      conn.headerFields = [("Content-Type", ctype)] ∧
      (post t url ctype data).2 =
        [Event.connCreate "", Event.appendHeader "Content-Type" ctype,
         Event.delegatedCall conn (HttpCall.post url data),
         Event.connDestroy] ∧
      (put t url ctype data).2 =
        [Event.connCreate "", Event.appendHeader "Content-Type" ctype,
         Event.delegatedCall conn (HttpCall.put url data),
         Event.connDestroy] ∧
      (patch t url ctype data).2 =
        [Event.connCreate "", Event.appendHeader "Content-Type" ctype,
         Event.delegatedCall conn (HttpCall.patch url data),
         Event.connDestroy] :=
  ⟨(Connection.new "").AppendHeader "Content-Type" ctype,
    rfl, rfl, rfl, rfl⟩

/-- C3: the global init returns 0 exactly when the transport library's
global initialization (the `CURLcode` `res`) succeeds with CURLE_OK (0),
hence nonzero when it fails, and it performs exactly one library init
call, with no retry or fallback. -/
theorem init_passthrough (res : Nat) :
    ((init res).1 = 0 ↔ res = 0) ∧ (init res).2 = [Event.globalInit] := by
  constructor
  · by_cases h : res = 0 <;> simp [init, h]
  · rfl

/-- C4: the builder's chain-head pointer is NULL from construction and
stays NULL exactly until the first append call; after destruction of any
builder built by appends both `formPtr` and `lastFormPtr` are NULL, so a
second destruction never releases the chain again (its trace holds no
`formFree`). -/
theorem postFormInfo_chain_invariant (ops : List AppendOp) :
    PostFormInfo.new.formPtr = none ∧
    PostFormInfo.new.lastFormPtr = none ∧
    ((PostFormInfo.new.applyOps ops).formPtr = none ↔ ops = []) ∧
    ((PostFormInfo.new.applyOps ops).destruct.1.formPtr = none ∧
     (PostFormInfo.new.applyOps ops).destruct.1.lastFormPtr = none) ∧
    (PostFormInfo.new.applyOps ops).destruct.1.destruct.2 = [] := by
  have h3 : (PostFormInfo.new.applyOps ops).formPtr = none ↔ ops = [] := by
    cases ops with
    | nil => simp [PostFormInfo.applyOps, PostFormInfo.new]
    | cons op rest =>
        have hs : (PostFormInfo.new.applyOps (op :: rest)).formPtr.isSome
            = true :=
          PostFormInfo.applyOps_formPtr_isSome rest _
            (AppendOp.apply_formPtr_isSome PostFormInfo.new op)
        constructor
        · intro h; rw [h] at hs; simp at hs
        · intro h; simp at h
  have h45 : ((PostFormInfo.new.applyOps ops).destruct.1.formPtr = none ∧
      (PostFormInfo.new.applyOps ops).destruct.1.lastFormPtr = none) ∧
      (PostFormInfo.new.applyOps ops).destruct.1.destruct.2 = [] := by
    cases h : (PostFormInfo.new.applyOps ops).formPtr with
    | some chain => simp [PostFormInfo.destruct, h]
    | none =>
        have hops : ops = [] := h3.mp h
        subst hops
        simp [PostFormInfo.applyOps, PostFormInfo.destruct, PostFormInfo.new]
  exact ⟨rfl, rfl, h3, h45.1, h45.2⟩

/-- C5: destroying a builder with zero appended fields is a no-op: no
`curl_formfree` call happens (empty event trace) and the builder state
is unchanged. -/
theorem empty_builder_destruct_noop :
    PostFormInfo.new.destruct = (PostFormInfo.new, []) := rfl

/-- C6: `postForm` neither takes ownership of nor modifies the caller's
builder: its trace contains no `formFree` release of any chain, and is
exactly the creation of the facade's own connection, one delegated call
receiving the caller's builder with its chain unchanged, and the
destruction of that connection only. -/
theorem postForm_preserves_builder (t : Transport) (url : String)
    (data : PostFormInfo) :
    ((postForm t url data).2.filter Event.isFormFree = []) ∧
    (postForm t url data).2 =
      [Event.connCreate "",
       Event.delegatedCall (Connection.new "")
         (HttpCall.postForm url data),
       Event.connDestroy] :=
  ⟨rfl, rfl⟩

/-- C7: each append call adds exactly one field descriptor at the end of
the chain, and after any sequence of append calls the chain equals the
appended fields in call order. -/
theorem append_order (p : PostFormInfo) (n v : String)
    (ops : List AppendOp) :
    ((p.addFormFile n v true).chain = p.chain ++ [FormField.file n v]) ∧
    ((p.addFormContent n v true).chain
      = p.chain ++ [FormField.content n v]) ∧
    ((PostFormInfo.new.applyOps ops).chain = ops.map AppendOp.toField) := by
  refine ⟨AppendOp.apply_chain p (AppendOp.file n v),
          AppendOp.apply_chain p (AppendOp.content n v), ?_⟩
  simpa [PostFormInfo.chain, PostFormInfo.new] using
    PostFormInfo.applyOps_chain ops PostFormInfo.new

/-- C8: `addFormContent` stores the field name and a copy of the literal
value, whose submitted value is that literal, independent of the
filesystem; `addFormFile` stores the field name and the file path only,
the contents being read from the filesystem as it stands at submission
time. -/
theorem addForm_storage (p : PostFormInfo) (n v : String)
    (fs fs' : String → Option String) :
    ((p.addFormContent n v true).chain
      = p.chain ++ [FormField.content n v]) ∧
    (FormField.submittedValue fs (FormField.content n v) = some v) ∧
    (FormField.submittedValue fs (FormField.content n v)
      = FormField.submittedValue fs' (FormField.content n v)) ∧
    ((p.addFormFile n v true).chain = p.chain ++ [FormField.file n v]) ∧
    (FormField.submittedValue fs (FormField.file n v) = fs v) :=
  ⟨AppendOp.apply_chain p (AppendOp.content n v), rfl, rfl,
   AppendOp.apply_chain p (AppendOp.file n v), rfl⟩

/-- C9: the `CURLFORMcode` from `curl_formadd` is neither checked nor
surfaced: on a failing append the library returns a nonzero code (1 in
the model) and leaves the chain untouched, and the void append methods
hand the caller the same unchanged builder with no error indication. -/
theorem addForm_code_discarded (p : PostFormInfo) (n v : String) :
    (p.addFormFile n v false = p) ∧
    (p.addFormContent n v false = p) ∧
    ((curl_formadd p.formPtr p.lastFormPtr
        (FormField.file n v) false).2 = 1) ∧
    ((curl_formadd p.formPtr p.lastFormPtr
        (FormField.content n v) false).2 = 1) :=
  ⟨rfl, rfl, rfl, rfl⟩

/-- C10: the non-body facade methods append no header at all to the
per-call connection: their traces contain no `appendHeader` event, and
the connection at the delegated call is the freshly constructed one,
whose header-field list is empty. -/
theorem non_body_no_headers (t : Transport) (url : String) :
    ((get t url).2.filter Event.isAppendHeader = []) ∧
    ((del t url).2.filter Event.isAppendHeader = []) ∧
    ((head t url).2.filter Event.isAppendHeader = []) ∧
    ((options t url).2.filter Event.isAppendHeader = []) ∧
    ((get t url).2 = [Event.connCreate "",
       Event.delegatedCall (Connection.new "") (HttpCall.get url),
       Event.connDestroy]) ∧
    ((del t url).2 = [Event.connCreate "",
       Event.delegatedCall (Connection.new "") (HttpCall.del url),
       Event.connDestroy]) ∧
    ((head t url).2 = [Event.connCreate "",
       Event.delegatedCall (Connection.new "") (HttpCall.head url),
       Event.connDestroy]) ∧
    ((options t url).2 = [Event.connCreate "",
       Event.delegatedCall (Connection.new "") (HttpCall.options url),
       Event.connDestroy]) ∧
    ((Connection.new "").headerFields = []) :=
  ⟨rfl, rfl, rfl, rfl, rfl, rfl, rfl, rfl, rfl⟩

end RestClient
